import Mathlib

/-!
Formal model of the AgentOS desktop shell's server process supervisor
(`src-tauri/src/main.rs`): launch resolution, process launch, readiness
probing, and the lifecycle store consumed by the window-close shutdown hook.

Paths are modelled as lists of components. External effects are parameters:
the filesystem existence probe, the OS spawn call, the TCP connect outcome
per attempt, and the kill-signal outcome per pid.
-/

/-- A spawned child process (`std::process::Child`), identified by its OS pid
as returned by `child.id()`. -/
structure Child where
  id : Nat
deriving DecidableEq, Repr

/-- The managed lifecycle store `ServerProcess(Mutex<Option<Child>>)`; the
mutex is abstracted away and `slot` is its guarded contents. -/
structure ServerProcess where
  slot : Option Child
deriving DecidableEq, Repr

/-- The build-tooling subdirectory name tested by
`current_dir.ends_with("src-tauri")`. -/
def srcTauriDirName : String := "src-tauri"

/-- Rust `Path::ends_with` with a single-component needle: true iff the final
path component equals `name`. -/
def pathEndsWith (p : List String) (name : String) : Bool :=
  p.getLast? == some name

/-- Rust `Path::parent`: `none` at the root, otherwise the path without its
final component. -/
def pathParent (p : List String) : Option (List String) :=
  match p with
  | [] => none
  | _ :: _ => some p.dropLast

/-- Project-root resolution in `start_server`: if the current directory's
final component is `src-tauri`, its parent is the project root (`none` when
the parent cannot be resolved, propagated by `?`); otherwise the current
directory itself is the project root. -/
def resolveProjectRoot (currentDir : List String) : Option (List String) :=
  if pathEndsWith currentDir srcTauriDirName then
    pathParent currentDir
  else
    some currentDir

/-- The production artifact location `project_root.join("dist/server.js")`. -/
def serverPath (projectRoot : List String) : List String :=
  projectRoot ++ ["dist", "server.js"]

/-- A resolved launch plan: command, argument list, working directory. -/
structure LaunchPlan where
  cmd : String
  args : List String
  workingDir : List String
deriving DecidableEq, Repr

/-- Plan selection in `start_server`: the production invocation
`node dist/server.js` when the artifact exists, the development invocation
`npx tsx server.ts` otherwise; the working directory is the project root in
both cases. -/
def resolvePlan (fileExists : List String → Bool) (projectRoot : List String) :
    LaunchPlan :=
  if fileExists (serverPath projectRoot) then
    ⟨"node", ["dist/server.js"], projectRoot⟩
  else
    ⟨"npx", ["tsx", "server.ts"], projectRoot⟩

/-- The external environment consulted by `start_server`: the current working
directory (`none` when `std::env::current_dir()` fails), the filesystem
existence probe, and the OS spawn call (`none` on any spawn failure). -/
structure Env where
  currentDir : Option (List String)
  fileExists : List String → Bool
  spawn : LaunchPlan → Option Child

/-- `start_server`: read the current directory, resolve the project root,
select the launch plan and spawn it; every failure (`.ok()?` / `?` in the
source) yields `none` instead of a propagating error. -/
def start_server (env : Env) : Option Child :=
  match env.currentDir with
  | none => none
  | some cwd =>
    match resolveProjectRoot cwd with
    | none => none
    | some root => env.spawn (resolvePlan env.fileExists root)

/-- Outcome of `wait_for_server`: the returned readiness flag plus the number
of TCP connection attempts made and of `thread::sleep` calls performed. -/
structure ProbeResult where
  ready : Bool
  attempts : Nat
  sleeps : Nat
deriving DecidableEq, Repr

/-- The `for attempt in 1..=max_attempts` loop of `wait_for_server`:
`attempt` is the 1-based index of the next attempt and `remaining` the number
of loop iterations left; `connect n` tells whether the TCP connect of attempt
`n` succeeds. A successful connect returns immediately; a failed attempt is
followed by a sleep (the source sleeps unconditionally after a failed connect,
including on the last iteration). -/
def wait_loop (connect : Nat → Bool) (attempt remaining : Nat) : ProbeResult :=
  match remaining with
  | 0 => ⟨false, 0, 0⟩
  | r + 1 =>
    if connect attempt then ⟨true, 1, 0⟩
    else
      let rest := wait_loop connect (attempt + 1) r
      ⟨rest.ready, rest.attempts + 1, rest.sleeps + 1⟩

/-- `wait_for_server(host, port, max_attempts)` with the TCP stack modelled by
`connect`; the host and port values do not affect the control flow. -/
def wait_for_server (connect : Nat → Bool) (maxAttempts : Nat) : ProbeResult :=
  wait_loop connect 1 maxAttempts

/-- Observable steps of the window-close handler, in execution order: the
`guard.take()`, and any `child.kill()` issued, recording the pid and the
discarded success flag. -/
inductive ShutdownEvent where
  | takeEv : ShutdownEvent
  | killEv : Nat → Bool → ShutdownEvent
deriving DecidableEq, Repr

/-- Result of one run of the window-close handler: the store contents
afterwards, the ordered event trace, and whether an error propagated out of
the handler. -/
structure TermResult where
  store : Option Child
  events : List ShutdownEvent
  errored : Bool
deriving DecidableEq, Repr

/-- The `CloseRequested` branch of `on_window_event`: take the handle out of
the store, then kill it if one was present; `killOk pid` is the OS outcome of
`child.kill()`, discarded by `let _ = child.kill()`. -/
def take_and_terminate (killOk : Nat → Bool) (st : Option Child) : TermResult :=
  match st with
  | some c =>
    ⟨none, [ShutdownEvent.takeEv, ShutdownEvent.killEv c.id (killOk c.id)], false⟩
  | none => ⟨none, [ShutdownEvent.takeEv], false⟩

/-- Pids to which a kill signal was issued during one shutdown-handler run. -/
def killedPids (r : TermResult) : List Nat :=
  r.events.filterMap fun e =>
    match e with
    | ShutdownEvent.killEv pid _ => some pid
    | ShutdownEvent.takeEv => none

/-- Observable outcome of the `setup` closure in `main`: the contents stored
into the managed `ServerProcess` state, the prober activity, the warnings
printed, and whether the closure returned `Ok(())`. -/
structure SetupResult where
  stored : Option Child
  probeAttempts : Nat
  probeSleeps : Nat
  warnedNotReady : Bool
  warnedNoServer : Bool
  setupOk : Bool
deriving DecidableEq, Repr

/-- The `setup` closure: start the server; if a handle was produced, probe
readiness with `wait_for_server("127.0.0.1", 3011, 60)` and warn when not
ready; otherwise warn that the server is assumed to be already running;
finally store the (possibly absent) handle via `app.manage` and return
`Ok(())`. -/
def setupHook (env : Env) (connect : Nat → Bool) : SetupResult :=
  match start_server env with
  | some c =>
    let probe := wait_for_server connect 60
    ⟨some c, probe.attempts, probe.sleeps, !probe.ready, false, true⟩
  | none => ⟨none, 0, 0, false, true, true⟩

/-- Application lifecycle state: `managed` is the `ServerProcess` state once
`app.manage` has run (`none` before setup) and `everTaken` records whether
the shutdown hook's take has run on the managed store. -/
structure AppState where
  managed : Option ServerProcess
  everTaken : Bool
deriving DecidableEq, Repr

/-- Number of live process handles held in the lifecycle store. -/
def liveHandles (s : AppState) : Nat :=
  match s.managed with
  | some ⟨some _⟩ => 1
  | _ => 0

/-- Reachable application states: the instance starts unmanaged; the setup
closure runs once (`app.manage` never overwrites an existing state) and
stores the launch result; each window-close event takes the contents out of
the managed store, leaving it empty. -/
inductive Reachable : AppState → Prop where
  | init : Reachable ⟨none, false⟩
  | setup (launch : Option Child) (s : AppState) :
      Reachable s → s.managed = none → Reachable ⟨some ⟨launch⟩, s.everTaken⟩
  | close (s : AppState) (slot : Option Child) :
      Reachable s → s.managed = some ⟨slot⟩ → Reachable ⟨some ⟨none⟩, true⟩

theorem wait_loop_all_fail (connect : Nat → Bool) (hf : ∀ n, connect n = false) :
    ∀ r a, wait_loop connect a r = ⟨false, r, r⟩ := by
  intro r
  induction r with
  | zero => intro a; rfl
  | succ r ih =>
    intro a
    simp [wait_loop, hf a, ih (a + 1)]

theorem wait_loop_first_success (connect : Nat → Bool) :
    ∀ k a r, k < r → (∀ j, j < k → connect (a + j) = false) →
      connect (a + k) = true → wait_loop connect a r = ⟨true, k + 1, k⟩ := by
  intro k
  induction k with
  | zero =>
    intro a r hr _ hok
    obtain ⟨r, rfl⟩ : ∃ r0, r = r0 + 1 := ⟨r - 1, (Nat.succ_pred_eq_of_pos hr).symm⟩
    simp only [Nat.add_zero] at hok
    simp [wait_loop, hok]
  | succ k ih =>
    intro a r hr hfail hok
    obtain ⟨r, rfl⟩ : ∃ r0, r = r0 + 1 :=
      ⟨r - 1, (Nat.succ_pred_eq_of_pos (Nat.lt_of_le_of_lt (Nat.zero_le _) hr)).symm⟩
    have h0 : connect a = false := by simpa using hfail 0 (Nat.succ_pos k)
    have hrest : wait_loop connect (a + 1) r = ⟨true, k + 1, k⟩ := by
      apply ih
      · exact Nat.lt_of_succ_lt_succ hr
      · intro j hj
        have hj' := hfail (j + 1) (Nat.succ_lt_succ hj)
        have harg : a + (j + 1) = a + 1 + j := by omega
        rwa [harg] at hj'
      · have harg : a + (k + 1) = a + 1 + k := by omega
        rwa [harg] at hok
    simp [wait_loop, h0, hrest]

theorem wait_loop_attempts_pos (connect : Nat → Bool) (a r : Nat) :
    1 ≤ (wait_loop connect a (r + 1)).attempts := by
  simp only [wait_loop]
  cases h : connect a <;> simp [h]

/-- C1 counterexample: with the default 60 attempts and a port that never
becomes connectable, `wait_for_server` performs 60 sleeps, not at most 59:
the source sleeps after every failed connect, including the final one. -/
theorem prober_sleeps_after_final_attempt :
    ¬ ((wait_for_server (fun _ => false) 60).sleeps ≤ 60 - 1) := by
  decide

/-- C1 (amended): for every `maxAttempts ≥ 1`, when no connection attempt
ever succeeds, `wait_for_server` performs exactly `maxAttempts` connection
attempts and exactly `maxAttempts` sleeps — one after every failed attempt,
including the final one (there is no sleep after a success) — and returns
not-ready. -/
theorem prober_exhaustion (connect : Nat → Bool) (maxAttempts : Nat)
    (_hmax : 1 ≤ maxAttempts) (hf : ∀ n, connect n = false) :
    wait_for_server connect maxAttempts = ⟨false, maxAttempts, maxAttempts⟩ :=
  wait_loop_all_fail connect hf maxAttempts 1

/-- C1 witness: the default configuration (60 attempts), never connectable. -/
theorem prober_exhaustion_witness :
    wait_for_server (fun _ => false) 60 = ⟨false, 60, 60⟩ :=
  prober_exhaustion (fun _ => false) 60 (by decide) (fun _ => rfl)

/-- C2: in every reachable application state the lifecycle store holds at
most one live process handle, and once the shutdown hook's take has run on
the managed store the slot is empty and stays empty — it is never
repopulated for the rest of the application instance's lifetime. -/
theorem supervisor_slot_invariant (s : AppState) (h : Reachable s) :
    liveHandles s ≤ 1 ∧ (s.everTaken = true → s.managed = some ⟨none⟩) := by
  induction h with
  | init => exact ⟨by simp [liveHandles], by simp⟩
  | setup launch s hs hnone ih =>
    refine ⟨?_, ?_⟩
    · cases launch <;> simp [liveHandles]
    · intro htaken
      have := ih.2 htaken
      rw [hnone] at this
      cases this
  | close s slot hs hman ih =>
    exact ⟨by simp [liveHandles], fun _ => rfl⟩

/-- C2 witness: the state reached by storing a handle at setup and then
taking it at window close satisfies the invariant. -/
theorem supervisor_slot_invariant_witness :
    liveHandles ⟨some ⟨none⟩, true⟩ ≤ 1 ∧
      ((true : Bool) = true →
        (⟨some ⟨none⟩, true⟩ : AppState).managed = some ⟨none⟩) :=
  supervisor_slot_invariant _
    (Reachable.close _ (some ⟨7⟩)
      (Reachable.setup (some ⟨7⟩) _ Reachable.init rfl) rfl)

/-- C3: for every store state, the first `take_and_terminate` issues a kill
to exactly the stored handle (no kill when the store is empty) and leaves
the store empty without error, and an immediately following second call
finds the empty store, issues no kill, and does not error; in particular
when no handle was ever stored (`st = none`) the call is a no-op that does
not error. -/
theorem take_and_terminate_twice (killOk : Nat → Bool) (st : Option Child) :
    ((take_and_terminate killOk st).store = none ∧
      killedPids (take_and_terminate killOk st) = (st.map Child.id).toList ∧
      (take_and_terminate killOk st).errored = false) ∧
    ((take_and_terminate killOk (take_and_terminate killOk st).store).store
        = none ∧
      killedPids (take_and_terminate killOk
        (take_and_terminate killOk st).store) = [] ∧
      (take_and_terminate killOk
        (take_and_terminate killOk st).store).errored = false) := by
  cases st <;> simp [take_and_terminate, killedPids]

/-- C4: for every working directory, when its final path component is
`src-tauri` the resolved project root is the directory's parent (the path
without its final component), and otherwise it is the directory itself. -/
theorem project_root_resolution (dir : List String) :
    (dir.getLast? = some srcTauriDirName →
      resolveProjectRoot dir = some dir.dropLast) ∧
    (dir.getLast? ≠ some srcTauriDirName →
      resolveProjectRoot dir = some dir) := by
  constructor
  · intro h
    cases dir with
    | nil => simp at h
    | cons x xs => simp [resolveProjectRoot, pathEndsWith, pathParent, h]
  · intro h
    simp [resolveProjectRoot, pathEndsWith, h]

/-- C4 witness: a working directory ending in `src-tauri` resolves to its
parent; any other working directory resolves to itself. -/
theorem project_root_resolution_witness :
    resolveProjectRoot ["app", "src-tauri"] = some ["app"] ∧
    resolveProjectRoot ["app", "web"] = some ["app", "web"] :=
  ⟨(project_root_resolution ["app", "src-tauri"]).1 (by decide),
   (project_root_resolution ["app", "web"]).2 (by decide)⟩

/-- C5: when the production artifact `<project_root>/dist/server.js` exists
the resolved launch plan is the production invocation `node dist/server.js`
with the project root as working directory, and otherwise it is the
development invocation `npx tsx server.ts`, also run in the project root. -/
theorem launch_plan_selection (fileExists : List String → Bool)
    (root : List String) :
    (fileExists (root ++ ["dist", "server.js"]) = true →
      resolvePlan fileExists root = ⟨"node", ["dist/server.js"], root⟩) ∧
    (fileExists (root ++ ["dist", "server.js"]) = false →
      resolvePlan fileExists root = ⟨"npx", ["tsx", "server.ts"], root⟩) := by
  constructor <;> intro h <;> simp [resolvePlan, serverPath, h]

/-- C5 witness: a filesystem containing exactly `proj/dist/server.js` gives
the production plan; an empty filesystem gives the development plan. -/
theorem launch_plan_selection_witness :
    resolvePlan (fun p => p == ["proj", "dist", "server.js"]) ["proj"] =
      ⟨"node", ["dist/server.js"], ["proj"]⟩ ∧
    resolvePlan (fun _ => false) ["proj"] =
      ⟨"npx", ["tsx", "server.ts"], ["proj"]⟩ :=
  ⟨(launch_plan_selection _ ["proj"]).1 (by decide),
   (launch_plan_selection _ ["proj"]).2 rfl⟩

/-- C6: the Readiness Prober returns ready on the first attempt whose TCP
connection succeeds: if attempts `1 .. k-1` fail and attempt `k` connects,
with `1 ≤ k ≤ maxAttempts`, then `wait_for_server` returns ready after
exactly `k` connection attempts and exactly `k - 1` sleeps; in particular,
a port becoming connectable on attempt 3 of 60 gives ready after exactly 3
attempts and 2 sleeps. -/
theorem prober_ready_on_first_success (connect : Nat → Bool)
    (k maxAttempts : Nat) (hk : 1 ≤ k) (hmax : k ≤ maxAttempts)
    (hfail : ∀ j, j < k → 1 ≤ j → connect j = false)
    (hok : connect k = true) :
    wait_for_server connect maxAttempts = ⟨true, k, k - 1⟩ := by
  obtain ⟨k, rfl⟩ : ∃ k0, k = k0 + 1 := ⟨k - 1, (Nat.succ_pred_eq_of_pos hk).symm⟩
  have h := wait_loop_first_success connect k 1 maxAttempts
    (by omega)
    (fun j hj => by
      have h1 : (1 : Nat) + j = j + 1 := by omega
      rw [h1]
      exact hfail (j + 1) (by omega) (by omega))
    (by
      have h1 : (1 : Nat) + k = k + 1 := by omega
      rw [h1]; exact hok)
  rw [wait_for_server, h]
  simp

/-- C6 witness: a port that becomes connectable exactly on attempt 3 of the
default 60 yields ready with 3 attempts and 2 sleeps. -/
theorem prober_ready_on_first_success_witness :
    wait_for_server (fun n => decide (n = 3)) 60 = ⟨true, 3, 2⟩ :=
  prober_ready_on_first_success (fun n => decide (n = 3)) 3 60 (by decide)
    (by decide) (by decide) (by decide)

/-- C7: when every spawn attempt fails (missing executable, permission
denied, ...), `start_server` yields no handle rather than a propagating
error, and the setup closure still completes (`Ok(())`) with no handle
stored in the lifecycle store. -/
theorem spawn_failure_nonfatal (env : Env) (connect : Nat → Bool)
    (hspawn : ∀ plan, env.spawn plan = none) :
    start_server env = none ∧
    (setupHook env connect).stored = none ∧
    (setupHook env connect).setupOk = true := by
  have hs : start_server env = none := by
    cases henv : env.currentDir with
    | none => simp [start_server, henv]
    | some cwd =>
      cases hroot : resolveProjectRoot cwd with
      | none => simp [start_server, henv, hroot]
      | some root => simp [start_server, henv, hroot, hspawn]
  refine ⟨hs, ?_, ?_⟩ <;> simp [setupHook, hs]

/-- C7 witness: an environment whose spawn call always fails. -/
theorem spawn_failure_nonfatal_witness :
    start_server ⟨some ["proj"], fun _ => false, fun _ => none⟩ = none ∧
    (setupHook ⟨some ["proj"], fun _ => false, fun _ => none⟩
      (fun _ => true)).stored = none ∧
    (setupHook ⟨some ["proj"], fun _ => false, fun _ => none⟩
      (fun _ => true)).setupOk = true :=
  spawn_failure_nonfatal _ _ (fun _ => rfl)

/-- C8: when the current working directory cannot be determined, the launch
resolver's failure is absorbed locally: `start_server` yields no handle, the
setup closure stores nothing, warns that the server is assumed to be already
running, and still completes without aborting startup. -/
theorem cwd_failure_nonfatal (env : Env) (connect : Nat → Bool)
    (hcwd : env.currentDir = none) :
    start_server env = none ∧
    (setupHook env connect).stored = none ∧
    (setupHook env connect).warnedNoServer = true ∧
    (setupHook env connect).setupOk = true := by
  have hs : start_server env = none := by
    unfold start_server
    rw [hcwd]
  refine ⟨hs, ?_, ?_, ?_⟩ <;> simp [setupHook, hs]

/-- C8 witness: an environment where the current directory is unavailable. -/
theorem cwd_failure_nonfatal_witness :
    start_server ⟨none, fun _ => false, fun _ => none⟩ = none ∧
    (setupHook ⟨none, fun _ => false, fun _ => none⟩
      (fun _ => true)).stored = none ∧
    (setupHook ⟨none, fun _ => false, fun _ => none⟩
      (fun _ => true)).warnedNoServer = true ∧
    (setupHook ⟨none, fun _ => false, fun _ => none⟩
      (fun _ => true)).setupOk = true :=
  cwd_failure_nonfatal _ _ rfl

/-- C9: the readiness probe runs exactly when the launch produced a handle:
the setup closure performs zero probe connection attempts precisely when
`start_server` yields no handle (when a handle is produced, the probe makes
at least one attempt). -/
theorem probe_iff_handle (env : Env) (connect : Nat → Bool) :
    (setupHook env connect).probeAttempts = 0 ↔ start_server env = none := by
  cases hs : start_server env with
  | none => simp [setupHook, hs]
  | some c =>
    simp only [setupHook, hs]
    constructor
    · intro h
      exfalso
      have hpos := wait_loop_attempts_pos connect 1 59
      have h60 : (59 : Nat) + 1 = 60 := rfl
      rw [h60] at hpos
      rw [wait_for_server] at h
      omega
    · intro h
      cases h

/-- C10: the shutdown handler takes the handle out of the store before any
kill is issued (the event trace begins with the take), leaves the store
empty even when the kill operation itself fails, and discards the kill
result without propagating an error. -/
theorem shutdown_take_before_kill (killOk : Nat → Bool) (st : Option Child) :
    (take_and_terminate killOk st).events.head? = some ShutdownEvent.takeEv ∧
    (take_and_terminate killOk st).store = none ∧
    (take_and_terminate killOk st).errored = false := by
  cases st <;> simp [take_and_terminate]
